import Mathlib

/-!
Shallow embedding of the two LibreNMS helper scripts
`scripts/enhanced/dnsChecker.py` and `scripts/enhanced/sslChecker.py`.

Network and filesystem effects are modelled as explicit oracle arguments:
a DNS probe receives a function from the resolver configuration it builds
to the outcome the network produces (indexed by an attempt number, so that
a retrying implementation would consult indices above 0); the TLS probe
receives a function from (host, port) to the handshake outcome; the
LibreNMS API sink receives the HTTP-level outcome of each POST.  Wall-clock
instants are rationals (DNS, seconds) or integers (TLS, seconds); the
scripts capture `datetime.now()` once, at function entry, and that instant
is passed in as the `start`/`now` argument.
-/

namespace DnsChecker

/-- Python `round(x, 2)` applied to the elapsed time in milliseconds
(`dnsChecker.py` line 100).  Modelled on `ℚ` as rounding to the nearest
multiple of 1/100 (ties upward; Python rounds ties to even on binary
floats, a distinction below the granularity of the spec's claims). -/
def round2 (q : ℚ) : ℚ := (⌊q * 100 + 1 / 2⌋ : ℤ) / 100

/-- The resolver configuration built in `resolve_dns`
(`dnsChecker.py` lines 89-92): `resolver.nameservers = [dns_server]`,
`resolver.timeout = timeout`, `resolver.lifetime = timeout`. -/
structure DnsQueryConfig where
  nameservers : List String
  timeout : ℕ
  lifetime : ℕ
deriving DecidableEq

/-- `resolve_dns` builds the query configuration from its arguments. -/
def mk_dns_query (dns_server : String) (timeout : ℕ) : DnsQueryConfig :=
  { nameservers := [dns_server], timeout := timeout, lifetime := timeout }

/-- Outcome of one `resolver.resolve(domain, 'A')` call: either an answer
list (with the wall-clock seconds it took), or one of the exceptions the
script catches (`dnsChecker.py` lines 108-119). -/
inductive DnsOutcome where
  | answers (records : List String) (elapsed : ℚ)
  | timeout
  | nxdomain
  | noAnswer
  | noNameservers
  | dnsError (msg : String)
  | unexpected (msg : String)
deriving DecidableEq

/-- The result dictionary of `resolve_dns` (`dnsChecker.py` lines 80-85):
`resolved_ip`, `resolve_time_ms`, `timestamp` (set to `datetime.now()` at
function entry, before the query is issued) and `error`. -/
structure DnsResult where
  resolved_ip : Option String
  resolve_time_ms : Option ℚ
  timestamp : ℚ
  error : Option String
deriving DecidableEq

/-- Boolean test: the success fields (`resolved_ip`, `resolve_time_ms`)
of a DNS result are populated. -/
def DnsResult.hasSuccessFields (r : DnsResult) : Bool :=
  r.resolved_ip.isSome && r.resolve_time_ms.isSome

/-- Boolean test: the failure field (`error`) of a DNS result is populated. -/
def DnsResult.hasFailureField (r : DnsResult) : Bool :=
  r.error.isSome

/-- Body of `resolve_dns` after the query configuration is built
(`dnsChecker.py` lines 94-121): on an answer, `resolve_time_ms` is the
elapsed wall-clock time in milliseconds rounded to 2 decimal places
(line 100) and `resolved_ip` is `str(answers[0])`, the first record
verbatim (line 103); `answers[0]` on an empty answer list raises
`IndexError`, landing in the generic `except Exception` arm (line 118);
each caught exception stores its message in `error`.  All branches keep
`timestamp` at the value captured on entry. -/
def dnsResultOfOutcome (timeout : ℕ) (start : ℚ) : DnsOutcome → DnsResult
  | .answers records elapsed =>
    match records with
    | [] =>
      { resolved_ip := none, resolve_time_ms := none, timestamp := start,
        error := some "Unexpected error: list index out of range" }
    | ip :: _ =>
      { resolved_ip := some ip, resolve_time_ms := some (round2 (elapsed * 1000)),
        timestamp := start, error := none }
  | .timeout =>
    { resolved_ip := none, resolve_time_ms := none, timestamp := start,
      error := some ("DNS query timeout after " ++ toString timeout ++ " seconds") }
  | .nxdomain =>
    { resolved_ip := none, resolve_time_ms := none, timestamp := start,
      error := some "Domain does not exist (NXDOMAIN)" }
  | .noAnswer =>
    { resolved_ip := none, resolve_time_ms := none, timestamp := start,
      error := some "No answer received from DNS server" }
  | .noNameservers =>
    { resolved_ip := none, resolve_time_ms := none, timestamp := start,
      error := some "No nameservers available" }
  | .dnsError msg =>
    { resolved_ip := none, resolve_time_ms := none, timestamp := start,
      error := some ("DNS error: " ++ msg) }
  | .unexpected msg =>
    { resolved_ip := none, resolve_time_ms := none, timestamp := start,
      error := some ("Unexpected error: " ++ msg) }

/-- `resolve_dns(domain, dns_server, timeout)` (`dnsChecker.py` lines
74-121).  `network` models the DNS transport: it receives the resolver
configuration the function builds, the queried domain, and an attempt
index.  The body issues exactly one `resolver.resolve` call, so only
attempt index 0 is ever consulted. -/
def resolve_dns (domain dns_server : String) (timeout : ℕ) (start : ℚ)
    (network : DnsQueryConfig → String → ℕ → DnsOutcome) : DnsResult :=
  dnsResultOfOutcome timeout start (network (mk_dns_query dns_server timeout) domain 0)

/-- `resolve_dns` together with the number of resolver queries it issues.
The source body contains a single `resolver.resolve` call (line 96) and no
loop around it, so the attempt count is 1 on every path. -/
def resolve_dns_run (domain dns_server : String) (timeout : ℕ) (start : ℚ)
    (network : DnsQueryConfig → String → ℕ → DnsOutcome) : DnsResult × ℕ :=
  (resolve_dns domain dns_server timeout start network, 1)

/-- HTTP-level outcome of one `requests.post` against the LibreNMS API,
one constructor per handled case of `update_dns_lookup_via_api`
(`dnsChecker.py` lines 224-253) and `update_ssl_verification_via_api`
(`sslChecker.py` lines 261-290). -/
inductive ApiOutcome where
  | ok
  | badStatus (msg : String)
  | timeout
  | connectionFailed (msg : String)
  | httpError (code : ℕ)
  | badJson
  | unexpected (msg : String)
deriving DecidableEq

/-- `update_dns_lookup_via_api` (`dnsChecker.py` lines 195-253): returns
`True` only when the POST succeeds and the response body carries
`status == 'ok'`.  Every handled exception - including `HTTPError` with
status 401/403, which only prints a different message (lines 242-247) -
returns `False`; none of them aborts the run. -/
def update_dns_lookup_via_api (response : ApiOutcome) : Bool :=
  match response with
  | .ok => true
  | .badStatus _ => false
  | .timeout => false
  | .connectionFailed _ => false
  | .httpError _ => false
  | .badJson => false
  | .unexpected _ => false

/-- One iteration of the nested loop in `main` (`dnsChecker.py` lines
287-309): the DNS server, the domain, the probe result, and whether the
API update succeeded. -/
structure DnsRecord where
  dns_server : String
  domain : String
  result : DnsResult
  updated : Bool
deriving DecidableEq

/-- The probing loop of `main` (`dnsChecker.py` lines 287-309): for each
DNS server, for each domain, resolve once and POST the result once.
`probe d s` models `resolve_dns(domain, dns_server)` and `api d s r`
models the HTTP outcome of the POST for that item. -/
def dnsRun (dns_servers domains : List String)
    (probe : String → String → DnsResult)
    (api : String → String → DnsResult → ApiOutcome) : List DnsRecord :=
  dns_servers.flatMap fun s =>
    domains.map fun d =>
      let r := probe d s
      { dns_server := s, domain := d, result := r,
        updated := update_dns_lookup_via_api (api d s r) }

/-- The (resolver, domain) key of a loop record. -/
def dnsKey (r : DnsRecord) : String × String := (r.dns_server, r.domain)

/-- `fail_count` at the end of `main` (`dnsChecker.py` lines 304-305):
the number of items whose API update returned `False`. -/
def dnsFailCount (records : List DnsRecord) : ℕ :=
  (records.filter fun r => !r.updated).length

/-- A text configuration file as the scripts see it: absent
(`FileNotFoundError`), fully readable, or failing with some exception
after a prefix of lines was already consumed (the generic
`except Exception` arms of `read_domains` / `read_dns_servers`). -/
inductive FileContent where
  | missing
  | lines (ls : List (List Char))
  | errorAfter (ls : List (List Char))
deriving DecidableEq

/-- Python `str.strip()`: drop whitespace from both ends of the line. -/
def strip (l : List Char) : List Char :=
  ((l.dropWhile Char.isWhitespace).reverse.dropWhile Char.isWhitespace).reverse

/-- Python `line.startswith('#')`. -/
def startsWithHash : List Char → Bool
  | '#' :: _ => true
  | _ => false

/-- The three characters of the separator `'://'`. -/
def schemeSep : List Char := [':', '/', '/']

/-- Split a list around the first occurrence of `sep`: `some (pre, post)`
with `l = pre ++ sep ++ post` when `sep` occurs, `none` otherwise. -/
def breakOnSep (sep : List Char) : List Char → Option (List Char × List Char)
  | [] => none
  | c :: rest =>
    if sep.isPrefixOf (c :: rest) then some ([], (c :: rest).drop sep.length)
    else
      match breakOnSep sep rest with
      | some (pre, post) => some (c :: pre, post)
      | none => none

/-- Python `domain.split('://')[1]` guarded by `if '://' in domain`
(`dnsChecker.py` lines 59-60): when `'://'` occurs, the second split
segment is the text strictly between the first occurrence and the next
one (or the end of the line); otherwise the line is unchanged. -/
def afterScheme (l : List Char) : List Char :=
  match breakOnSep schemeSep l with
  | none => l
  | some (_, post) =>
    match breakOnSep schemeSep post with
    | none => post
    | some (pre2, _) => pre2

/-- The domain-extraction steps of `read_domains` (`dnsChecker.py` lines
58-64).  `if '/' in domain: domain = domain.split('/')[0]` keeps the
characters before the first `'/'`, which is `takeWhile`; likewise for
`':'` (and when the character does not occur, `split(...)[0]` is the
whole string, so the unguarded `takeWhile` is equivalent). -/
def clean_domain (l : List Char) : List Char :=
  ((afterScheme l).takeWhile fun c => c != '/').takeWhile fun c => c != ':'

/-- Decidable occurrence of `sep` as a contiguous substring of `l`. -/
def occursIn (sep l : List Char) : Bool :=
  l.tails.any fun t => sep.isPrefixOf t

/-- Per-line treatment in `read_domains` (`dnsChecker.py` lines 54-65):
strip, skip empty lines and comments, extract the domain. -/
def keep_domain_line (raw : List Char) : Option (List Char) :=
  let line := strip raw
  if !line.isEmpty && !startsWithHash line then some (clean_domain line) else none

/-- The loop body of `read_domains` over a list of readable lines. -/
def read_domains_lines (ls : List (List Char)) : List (List Char) :=
  ls.filterMap keep_domain_line

/-- `read_domains` (`dnsChecker.py` lines 49-71): a missing file yields a
warning and the empty list; a read error after some prefix of lines
yields the domains accumulated from that prefix; the function never
raises. -/
def read_domains : FileContent → List (List Char)
  | .missing => []
  | .lines ls => read_domains_lines ls
  | .errorAfter ls => read_domains_lines ls

/-- Per-line treatment in `read_dns_servers` (`dnsChecker.py` lines
31-34): strip, skip empty lines and comments, keep the line verbatim. -/
def keep_server_line (raw : List Char) : Option (List Char) :=
  let line := strip raw
  if !line.isEmpty && !startsWithHash line then some line else none

/-- `read_dns_servers` (`dnsChecker.py` lines 26-46): same error
recovery as `read_domains` (a missing file additionally writes a template
file, a side effect outside this model). -/
def read_dns_servers : FileContent → List (List Char)
  | .missing => []
  | .lines ls => ls.filterMap keep_server_line
  | .errorAfter ls => ls.filterMap keep_server_line

/-- The credentials file `api_config.ini` as `load_api_config` resolves
it (`dnsChecker.py` lines 124-192): not found in either search location,
unreadable, missing the `[api]` section, or carrying the two optional
keys of that section. -/
inductive IniFile where
  | absent
  | unreadable
  | noApiSection
  | apiSection (url : Option String) (token : Option String)
deriving DecidableEq

/-- Python `api_url.rstrip('/')` (`dnsChecker.py` line 184). -/
def rstripSlashes (s : String) : String :=
  String.mk ((s.toList.reverse.dropWhile fun c => c == '/').reverse)

/-- `load_api_config` (`dnsChecker.py` lines 124-192, identical in
`sslChecker.py`): `Except.error ()` models `sys.exit(1)`, raised when the
file is absent (line 167) and when any exception - unreadable file,
missing `[api]` section, missing or falsy `url` or `token` - is caught by
the trailing handler (lines 190-192). -/
def load_api_config : IniFile → Except Unit (String × String)
  | .absent => .error ()
  | .unreadable => .error ()
  | .noApiSection => .error ()
  | .apiSection url token =>
    match url, token with
    | some u, some t =>
      if u = "" then .error ()
      else if t = "" then .error ()
      else .ok (rstripSlashes u, t)
    | some _, none => .error ()
    | none, _ => .error ()

/-- Process exit code of a run: 0 for a normal return from `main`,
1 for `sys.exit(1)`. -/
def exit_code {α : Type} : Except Unit α → ℕ
  | .ok _ => 0
  | .error _ => 1

/-- `main` of `dnsChecker.py` (lines 256-315): load credentials (exit 1
on failure), read the two registries (warn-and-continue on their errors),
return early with no probing when either list is empty, otherwise run the
probing loop.  Normal completion is `Except.ok` with the loop records. -/
def dns_main (cfg : IniFile) (serversFile domainsFile : FileContent)
    (probe : String → String → DnsResult)
    (api : String → String → DnsResult → ApiOutcome) : Except Unit (List DnsRecord) :=
  match load_api_config cfg with
  | .error e => .error e
  | .ok _ =>
    let dns_servers := (read_dns_servers serversFile).map String.mk
    if dns_servers.isEmpty then .ok []
    else
      let domains := (read_domains domainsFile).map String.mk
      if domains.isEmpty then .ok []
      else .ok (dnsRun dns_servers domains probe api)

end DnsChecker

namespace SslChecker

open DnsChecker (ApiOutcome IniFile load_api_config exit_code)

/-- The fields of the peer certificate that `check_ssl_certificate`
reads: the parsed `notBefore` and `notAfter` instants (seconds), and the
issuer as the list of first attribute pairs of each RDN, in certificate
order - the `x[0] for x in cert.get('issuer', [])` of `sslChecker.py`
line 82 (a certificate without an issuer key is the empty list). -/
structure Certificate where
  notBefore : ℤ
  notAfter : ℤ
  issuer : List (String × String)
deriving DecidableEq

/-- Outcome of the TCP connect plus TLS handshake: the peer certificate
object (`none` models a falsy `getpeercert()` result), or one of the
exceptions the script catches (`sslChecker.py` lines 92-101). -/
inductive TlsOutcome where
  | peerCert (cert : Option Certificate)
  | timeout
  | gaiError (msg : String)
  | sslError (msg : String)
  | refused
  | unexpected (msg : String)
deriving DecidableEq

/-- The result dictionary of `check_ssl_certificate` (`sslChecker.py`
lines 47-54): `valid` is the string `'yes'` or `'no'` (default `'no'`),
`lastChecked` is `datetime.now()` captured at entry, and `error` is a key
added only inside the exception handlers. -/
structure SslResult where
  valid : String
  days_until_expires : Option ℤ
  valid_from : Option ℤ
  valid_to : Option ℤ
  issuer : Option String
  lastChecked : ℤ
  error : Option String
deriving DecidableEq

/-- Boolean test: the certificate fields of a TLS result are populated. -/
def SslResult.hasSuccessFields (r : SslResult) : Bool :=
  r.days_until_expires.isSome && r.valid_from.isSome && r.valid_to.isSome && r.issuer.isSome

/-- Boolean test: the failure field (`error`) of a TLS result is populated. -/
def SslResult.hasFailureField (r : SslResult) : Bool :=
  r.error.isSome

/-- Lookup in the Python `dict` built from a pair list: later pairs
overwrite earlier ones, absent keys give `none`. -/
def dict_find (pairs : List (String × String)) (key : String) : Option String :=
  (pairs.reverse.find? fun p => p.1 == key).map fun p => p.2

/-- Python `dict.get(key, default)`. -/
def dict_get (pairs : List (String × String)) (key dflt : String) : String :=
  (dict_find pairs key).getD dflt

/-- The expiry computation of `check_ssl_certificate` (`sslChecker.py`
lines 76-79): `(not_after - now).days` when `now <= not_after`, else 0.
Python `timedelta.days` is floor division of the difference by one day,
hence `Int.fdiv` by 86400 seconds. -/
def days_until_expires_calc (now notAfter : ℤ) : ℤ :=
  if now ≤ notAfter then (notAfter - now).fdiv 86400 else 0

/-- `check_ssl_certificate(domain, port, timeout)` (`sslChecker.py` lines
41-103).  `network` models the TCP connect and TLS handshake against
(domain, port).  A falsy certificate leaves the initial dictionary
untouched (the `if cert:` guard, line 66).  With a certificate:
`is_valid = now >= not_before and now <= not_after` (line 73), the expiry
days are `days_until_expires_calc`, and the issuer falls back from
`organizationName` to `commonName` to `'Unknown'` (lines 82-83). -/
def check_ssl_certificate (domain : String) (port : ℕ) (timeout : ℕ) (now : ℤ)
    (network : String → ℕ → TlsOutcome) : SslResult :=
  let base : SslResult :=
    { valid := "no", days_until_expires := none, valid_from := none,
      valid_to := none, issuer := none, lastChecked := now, error := none }
  match network domain port with
  | .peerCert none => base
  | .peerCert (some cert) =>
    { base with
      valid := if cert.notBefore ≤ now ∧ now ≤ cert.notAfter then "yes" else "no",
      days_until_expires := some (days_until_expires_calc now cert.notAfter),
      valid_from := some cert.notBefore,
      valid_to := some cert.notAfter,
      issuer := some (dict_get cert.issuer "organizationName"
        (dict_get cert.issuer "commonName" "Unknown")) }
  | .timeout =>
    { base with error := some ("Connection timeout after " ++ toString timeout ++ " seconds") }
  | .gaiError msg => { base with error := some ("DNS resolution failed: " ++ msg) }
  | .sslError msg => { base with error := some ("SSL error: " ++ msg) }
  | .refused => { base with error := some "Connection refused" }
  | .unexpected msg => { base with error := some ("Unexpected error: " ++ msg) }

/-- `update_ssl_verification_via_api` (`sslChecker.py` lines 229-290):
the same outcome handling as the DNS variant - `True` only on an
HTTP-success response whose body carries `status == 'ok'`, `False` for
every handled exception including 401/403. -/
def update_ssl_verification_via_api (response : ApiOutcome) : Bool :=
  match response with
  | .ok => true
  | .badStatus _ => false
  | .timeout => false
  | .connectionFailed _ => false
  | .httpError _ => false
  | .badJson => false
  | .unexpected _ => false

/-- One iteration of the loop in `main` (`sslChecker.py` lines 320-339). -/
structure SslRecord where
  domain : String
  port : ℕ
  result : SslResult
  updated : Bool
deriving DecidableEq

/-- The probing loop of `main` (`sslChecker.py` lines 320-339): one
certificate check and one API update per (domain, port) target. -/
def sslRun (targets : List (String × ℕ))
    (probe : String → ℕ → SslResult)
    (api : String → ℕ → SslResult → ApiOutcome) : List SslRecord :=
  targets.map fun t =>
    let r := probe t.1 t.2
    { domain := t.1, port := t.2, result := r,
      updated := update_ssl_verification_via_api (api t.1 t.2 r) }

/-- The (domain, port) key of a loop record. -/
def sslKey (r : SslRecord) : String × ℕ := (r.domain, r.port)

/-- `main` of `sslChecker.py` (lines 293-345): load credentials (exit 1
on failure), fetch the target registry from the API - any exception there
is caught and answered with `sys.exit(1)` (lines 305-309) - return early
when the registry is empty, otherwise run the probing loop. -/
def ssl_main (cfg : IniFile) (fetch : Except String (List (String × ℕ)))
    (probe : String → ℕ → SslResult)
    (api : String → ℕ → SslResult → ApiOutcome) : Except Unit (List SslRecord) :=
  match load_api_config cfg with
  | .error e => .error e
  | .ok _ =>
    match fetch with
    | .error _ => .error ()
    | .ok targets =>
      if targets.isEmpty then .ok []
      else .ok (sslRun targets probe api)

end SslChecker

open DnsChecker SslChecker

/-- Helper: the source's guarded expiry computation equals the clamped
floor formula of the spec. -/
theorem days_calc_eq_max_floor (now notAfter : ℤ) :
    days_until_expires_calc now notAfter = max 0 ((notAfter - now).fdiv 86400) := by
  unfold days_until_expires_calc
  rcases le_or_lt now notAfter with h | h
  · rw [if_pos h]
    exact (max_eq_right (Int.fdiv_nonneg (by omega) (by norm_num))).symm
  · rw [if_neg (not_le.mpr h)]
    have h2 : (notAfter - now).fdiv 86400 < 0 := by
      rw [Int.fdiv_eq_ediv _ (by norm_num)]
      exact Int.ediv_neg' (by omega) (by norm_num)
    exact (max_eq_left h2.le).symm

/-- C5: for every successfully retrieved leaf certificate, the result is
reported valid exactly when `not_before <= now <= not_after`, and the
expiry days are `max 0` of the floor of `(not_after - now)` in days, so an
already-expired certificate yields 0, never a negative number. -/
theorem tls_validity_and_expiry (c : Certificate) (domain : String)
    (port timeout : ℕ) (now : ℤ) :
    ((check_ssl_certificate domain port timeout now
        fun _ _ => .peerCert (some c)).valid = "yes"
      ↔ (c.notBefore ≤ now ∧ now ≤ c.notAfter))
    ∧ (check_ssl_certificate domain port timeout now
        fun _ _ => .peerCert (some c)).days_until_expires
      = some (max 0 ((c.notAfter - now).fdiv 86400)) := by
  unfold check_ssl_certificate
  constructor
  · by_cases h : c.notBefore ≤ now ∧ now ≤ c.notAfter
    · simp [h]
    · simp [h]
  · simp [days_calc_eq_max_floor]

/-- C6: the DNS probe builds a resolver configuration whose nameserver
list is exactly the given resolver (no system-default fallback), consults
the network once with that configuration, and on a successful answer
reports the elapsed wall-clock time in milliseconds rounded to 2 decimal
places and the first returned address record verbatim. -/
theorem dns_probe_success_fields (domain dns_server : String) (timeout : ℕ)
    (start elapsed : ℚ) (ip : String) (rest : List String)
    (network : DnsQueryConfig → String → ℕ → DnsOutcome) :
    (mk_dns_query dns_server timeout).nameservers = [dns_server]
    ∧ resolve_dns domain dns_server timeout start network
      = dnsResultOfOutcome timeout start (network (mk_dns_query dns_server timeout) domain 0)
    ∧ (dnsResultOfOutcome timeout start (.answers (ip :: rest) elapsed)).resolved_ip = some ip
    ∧ (dnsResultOfOutcome timeout start (.answers (ip :: rest) elapsed)).resolve_time_ms
      = some (round2 (elapsed * 1000)) :=
  ⟨rfl, rfl, rfl, rfl⟩

/-- C7: for every successfully retrieved leaf certificate, the reported
issuer is the issuer's organization name; if absent, the issuer's common
name; if that too is absent, the literal string "Unknown". -/
theorem tls_issuer_fallback (c : Certificate) (domain : String)
    (port timeout : ℕ) (now : ℤ) :
    (check_ssl_certificate domain port timeout now
        fun _ _ => .peerCert (some c)).issuer
      = some (match dict_find c.issuer "organizationName" with
        | some org => org
        | none =>
          match dict_find c.issuer "commonName" with
          | some cn => cn
          | none => "Unknown") := by
  unfold check_ssl_certificate dict_get
  cases h1 : dict_find c.issuer "organizationName" <;>
    cases h2 : dict_find c.issuer "commonName" <;> simp [h1, h2]

/-- C9: when the TLS handshake succeeds but the peer certificate object
is empty, the result keeps `valid = 'no'`, all certificate fields `None`,
and carries no error field at all. -/
theorem tls_empty_cert_result (domain : String) (port timeout : ℕ) (now : ℤ) :
    check_ssl_certificate domain port timeout now (fun _ _ => .peerCert none)
      = { valid := "no", days_until_expires := none, valid_from := none,
          valid_to := none, issuer := none, lastChecked := now, error := none } :=
  rfl

/-- Helper: the (resolver, domain) keys of one DNS run are exactly the
cross product of the server list and the domain list, in loop order. -/
theorem dnsRun_map_key (dns_servers domains : List String)
    (probe : String → String → DnsResult)
    (api : String → String → DnsResult → ApiOutcome) :
    (dnsRun dns_servers domains probe api).map dnsKey = dns_servers ×ˢ domains := by
  unfold dnsRun dnsKey
  rw [List.map_flatMap]
  simp only [List.map_map]
  rfl

/-- Helper: a DNS run emits one record per element of the cross product. -/
theorem dnsRun_length (dns_servers domains : List String)
    (probe : String → String → DnsResult)
    (api : String → String → DnsResult → ApiOutcome) :
    (dnsRun dns_servers domains probe api).length
      = dns_servers.length * domains.length := by
  have h := congrArg List.length (dnsRun_map_key dns_servers domains probe api)
  simpa [List.length_map, List.length_product] using h

/-- Helper: the (domain, port) keys of one TLS run are the target list. -/
theorem sslRun_map_key (targets : List (String × ℕ))
    (probe : String → ℕ → SslResult)
    (api : String → ℕ → SslResult → ApiOutcome) :
    (sslRun targets probe api).map sslKey = targets := by
  unfold sslRun sslKey
  rw [List.map_map]
  show List.map id targets = targets
  exact List.map_id targets

/-- C1: the DNS run performs exactly one probe and emits exactly one
record per (resolver, domain) pair of the registry cross product - the
key list is duplicate-free and a pair occurs in it exactly when it lies
in the registry - and the TLS run emits exactly one record per
(domain, port) target; in both cases the total record count equals the
work-item count. -/
theorem scheduler_one_result_per_work_item
    (dns_servers domains : List String)
    (probe : String → String → DnsResult)
    (api : String → String → DnsResult → ApiOutcome)
    (targets : List (String × ℕ))
    (probeT : String → ℕ → SslResult)
    (apiT : String → ℕ → SslResult → ApiOutcome)
    (hs : dns_servers.Nodup) (hd : domains.Nodup) (ht : targets.Nodup) :
    (dnsRun dns_servers domains probe api).length
      = dns_servers.length * domains.length
    ∧ ((dnsRun dns_servers domains probe api).map dnsKey).Nodup
    ∧ (∀ s d, (s, d) ∈ (dnsRun dns_servers domains probe api).map dnsKey
        ↔ (s ∈ dns_servers ∧ d ∈ domains))
    ∧ (sslRun targets probeT apiT).map sslKey = targets
    ∧ ((sslRun targets probeT apiT).map sslKey).Nodup
    ∧ (sslRun targets probeT apiT).length = targets.length := by
  refine ⟨dnsRun_length dns_servers domains probe api, ?_, ?_, ?_, ?_, ?_⟩
  · rw [dnsRun_map_key]
    exact hs.product hd
  · intro s d
    rw [dnsRun_map_key]
    exact List.mem_product
  · exact sslRun_map_key targets probeT apiT
  · rw [sslRun_map_key]
    exact ht
  · have h := congrArg List.length (sslRun_map_key targets probeT apiT)
    simpa [List.length_map] using h

/-- Witness for C1 at a concrete registry of one resolver, two domains
and one TLS target. -/
theorem scheduler_one_result_per_work_item_witness :
    (dnsRun ["8.8.8.8"] ["example.com", "b.org"]
        (fun _ _ => dnsResultOfOutcome 5 0 .timeout) (fun _ _ _ => .ok)).length = 1 * 2
    ∧ ((dnsRun ["8.8.8.8"] ["example.com", "b.org"]
        (fun _ _ => dnsResultOfOutcome 5 0 .timeout) (fun _ _ _ => .ok)).map dnsKey).Nodup
    ∧ ("8.8.8.8", "example.com") ∈ (dnsRun ["8.8.8.8"] ["example.com", "b.org"]
        (fun _ _ => dnsResultOfOutcome 5 0 .timeout) (fun _ _ _ => .ok)).map dnsKey
    ∧ (sslRun [("example.com", 443)]
        (fun d p => check_ssl_certificate d p 10 0 fun _ _ => .peerCert none)
        (fun _ _ _ => .ok)).map sslKey = [("example.com", 443)]
    ∧ (sslRun [("example.com", 443)]
        (fun d p => check_ssl_certificate d p 10 0 fun _ _ => .peerCert none)
        (fun _ _ _ => .ok)).length = 1 := by
  have h := scheduler_one_result_per_work_item
    ["8.8.8.8"] ["example.com", "b.org"]
    (fun _ _ => dnsResultOfOutcome 5 0 .timeout) (fun _ _ _ => .ok)
    [("example.com", 443)]
    (fun d p => check_ssl_certificate d p 10 0 fun _ _ => .peerCert none)
    (fun _ _ _ => .ok)
    (by decide) (by decide) (by decide)
  exact ⟨h.1, h.2.1,
    (h.2.2.1 "8.8.8.8" "example.com").mpr ⟨by decide, by decide⟩,
    h.2.2.2.1, h.2.2.2.2.2⟩

/-- C2 counterexample: against a resolver that times out on every
attempt, `resolve_dns` issues exactly 1 resolver query - not the 3 the
claim requires for `max_retries = 2` - and emits a single result carrying
the timeout message. -/
theorem retry_policy_counterexample :
    (resolve_dns_run "example.com" "8.8.8.8" 5 0 fun _ _ _ => .timeout).2 = 1
    ∧ (resolve_dns_run "example.com" "8.8.8.8" 5 0 fun _ _ _ => .timeout).2 ≠ 3
    ∧ (resolve_dns_run "example.com" "8.8.8.8" 5 0 fun _ _ _ => .timeout).1.error
      = some "DNS query timeout after 5 seconds" := by
  refine ⟨rfl, by decide, ?_⟩
  show some ("DNS query timeout after " ++ toString (5 : ℕ) ++ " seconds")
    = some "DNS query timeout after 5 seconds"
  rfl

/-- C2 amended: the code has no retry policy at all - every work item's
probe issues exactly one resolver query whatever the failure kind, the
result is determined by the outcome of that single attempt, and a timeout
yields one Failure result carrying the timeout message. -/
theorem no_retry_single_attempt (domain dns_server : String) (timeout : ℕ)
    (start : ℚ) (network : DnsQueryConfig → String → ℕ → DnsOutcome) :
    (resolve_dns_run domain dns_server timeout start network).2 = 1
    ∧ (resolve_dns_run domain dns_server timeout start network).1
      = dnsResultOfOutcome timeout start (network (mk_dns_query dns_server timeout) domain 0)
    ∧ (dnsResultOfOutcome timeout start .timeout).error
      = some ("DNS query timeout after " ++ toString timeout ++ " seconds") :=
  ⟨rfl, rfl, rfl⟩

/-- Helper: with an always-401 sink, every record of a DNS run has a
failed update flag. -/
theorem dnsRun_all401_not_updated (dns_servers domains : List String)
    (probe : String → String → DnsResult) (r : DnsRecord)
    (hr : r ∈ dnsRun dns_servers domains probe fun _ _ _ => .httpError 401) :
    r.updated = false := by
  unfold dnsRun at hr
  rw [List.mem_flatMap] at hr
  obtain ⟨s, _, hm⟩ := hr
  rw [List.mem_map] at hm
  obtain ⟨d, _, rfl⟩ := hm
  rfl

/-- C3 counterexample: with a remote sink answering HTTP 401 to every
write, a run over one resolver and two domains still attempts a sink
write for both work items (each record's `updated` flag is the outcome of
its own POST), so a write is attempted after the first 401 response and
the run is not aborted. -/
theorem auth_error_abort_counterexample :
    (dnsRun ["8.8.8.8"] ["a.com", "b.org"]
        (fun _ _ => dnsResultOfOutcome 5 0 .timeout)
        fun _ _ _ => .httpError 401).map (fun r => r.updated) = [false, false]
    ∧ (dnsRun ["8.8.8.8"] ["a.com", "b.org"]
        (fun _ _ => dnsResultOfOutcome 5 0 .timeout)
        fun _ _ _ => .httpError 401).length ≠ 1 := by
  constructor
  · rfl
  · decide

/-- C3 amended: an HTTP 401 or 403 from the sink makes that item's update
return False (counted in `fail_count`); the run never aborts - every work
item still gets exactly one sink write attempt. -/
theorem auth_error_continues (dns_servers domains : List String)
    (probe : String → String → DnsResult) :
    update_dns_lookup_via_api (.httpError 401) = false
    ∧ update_dns_lookup_via_api (.httpError 403) = false
    ∧ (dnsRun dns_servers domains probe fun _ _ _ => .httpError 401).length
      = dns_servers.length * domains.length
    ∧ dnsFailCount (dnsRun dns_servers domains probe fun _ _ _ => .httpError 401)
      = dns_servers.length * domains.length := by
  refine ⟨rfl, rfl, dnsRun_length dns_servers domains probe _, ?_⟩
  unfold dnsFailCount
  rw [List.filter_eq_self.mpr, dnsRun_length]
  intro r hr
  rw [dnsRun_all401_not_updated dns_servers domains probe r hr]
  rfl

/-- C4 counterexample: a TLS probe whose handshake succeeds but whose
peer returns an empty certificate produces a result with neither the
success-field group nor the failure-field group populated; and a DNS
probe started at instant 0 whose answer took 2 seconds carries
`timestamp = 0`, the probe's start, not its completion instant
0 + 2 = 2. -/
theorem result_invariant_counterexample :
    SslResult.hasSuccessFields
      (check_ssl_certificate "example.com" 443 10 0 fun _ _ => .peerCert none) = false
    ∧ SslResult.hasFailureField
      (check_ssl_certificate "example.com" 443 10 0 fun _ _ => .peerCert none) = false
    ∧ (resolve_dns "example.com" "8.8.8.8" 5 0
        fun _ _ _ => .answers ["93.184.216.34"] 2).timestamp = 0
    ∧ (resolve_dns "example.com" "8.8.8.8" 5 0
        fun _ _ _ => .answers ["93.184.216.34"] 2).timestamp ≠ 2 := by
  refine ⟨rfl, rfl, rfl, by decide⟩

/-- C4 amended: every DNS result has exactly one of the two field groups
populated, and every TLS result does as well except when the peer
certificate object is empty, in which case neither group is populated;
in both probes the timestamp field holds the instant captured at probe
start, not at completion. -/
theorem result_field_groups_amended :
    (∀ (domain dns_server : String) (timeout : ℕ) (start : ℚ)
      (network : DnsQueryConfig → String → ℕ → DnsOutcome),
      DnsResult.hasSuccessFields (resolve_dns domain dns_server timeout start network)
        = !DnsResult.hasFailureField (resolve_dns domain dns_server timeout start network)
      ∧ (resolve_dns domain dns_server timeout start network).timestamp = start)
    ∧ (∀ (domain : String) (port timeout : ℕ) (now : ℤ)
      (network : String → ℕ → TlsOutcome),
      (check_ssl_certificate domain port timeout now network).lastChecked = now
      ∧ (if network domain port = .peerCert none
        then SslResult.hasSuccessFields
            (check_ssl_certificate domain port timeout now network) = false
          ∧ SslResult.hasFailureField
            (check_ssl_certificate domain port timeout now network) = false
        else SslResult.hasSuccessFields
            (check_ssl_certificate domain port timeout now network)
          = !SslResult.hasFailureField
            (check_ssl_certificate domain port timeout now network))) := by
  constructor
  · intro domain dns_server timeout start network
    unfold resolve_dns
    generalize network (mk_dns_query dns_server timeout) domain 0 = o
    cases o with
    | answers records elapsed => cases records <;> exact ⟨rfl, rfl⟩
    | timeout => exact ⟨rfl, rfl⟩
    | nxdomain => exact ⟨rfl, rfl⟩
    | noAnswer => exact ⟨rfl, rfl⟩
    | noNameservers => exact ⟨rfl, rfl⟩
    | dnsError msg => exact ⟨rfl, rfl⟩
    | unexpected msg => exact ⟨rfl, rfl⟩
  · intro domain port timeout now network
    constructor
    · unfold check_ssl_certificate
      generalize network domain port = o
      cases o with
      | peerCert cert => cases cert <;> rfl
      | timeout => rfl
      | gaiError msg => rfl
      | sslError msg => rfl
      | refused => rfl
      | unexpected msg => rfl
    · by_cases h : network domain port = .peerCert none
      · rw [if_pos h]
        unfold check_ssl_certificate
        rw [h]
        exact ⟨rfl, rfl⟩
      · rw [if_neg h]
        unfold check_ssl_certificate
        generalize hq : network domain port = o
        rw [hq] at h
        cases o with
        | peerCert cert =>
          cases cert with
          | none => exact absurd rfl h
          | some c => rfl
        | timeout => rfl
        | gaiError msg => rfl
        | sslError msg => rfl
        | refused => rfl
        | unexpected msg => rfl

/-- C8 counterexample: with valid credentials, a readable one-server
registry, and an unreadable domains registry (a read error before any
line), the DNS checker's `main` completes normally with exit code 0 and
no probing - not the exit code 1 the claim requires for an unreadable
target registry. -/
theorem exit_code_counterexample :
    exit_code (dns_main (.apiSection (some "http://x") (some "tok"))
      (.lines [['8']]) (.errorAfter [])
      (fun _ _ => dnsResultOfOutcome 5 0 .timeout) fun _ _ _ => .ok) = 0
    ∧ exit_code (dns_main (.apiSection (some "http://x") (some "tok"))
      (.lines [['8']]) (.errorAfter [])
      (fun _ _ => dnsResultOfOutcome 5 0 .timeout) fun _ _ _ => .ok) ≠ 1 := by
  constructor
  · rfl
  · decide

/-- C8 amended: a run that reaches its probing loop (credentials loaded)
always completes with exit code 0, whatever the probe and sink outcomes
and even when a registry file is unreadable (the DNS checker warns and
continues); a credentials-config failure produces exit code 1 in both
checkers, whatever the registry and oracles, and a registry fetch failure
produces exit code 1 in the TLS checker, whose registry comes from the
API; and when the DNS checker's domains registry yields no domain - in
particular when the file is unreadable before any line - the run returns
the empty record list: exit 0 with no probing and no sink write. -/
theorem exit_code_amended (cfg : IniFile) (serversFile domainsFile : FileContent)
    (probe : String → String → DnsResult)
    (api : String → String → DnsResult → ApiOutcome)
    (cred : String × String)
    (probeT : String → ℕ → SslResult)
    (apiT : String → ℕ → SslResult → ApiOutcome)
    (emsg : String)
    (hok : load_api_config cfg = .ok cred) :
    exit_code (dns_main cfg serversFile domainsFile probe api) = 0
    ∧ (∀ cfg2 : IniFile, load_api_config cfg2 = .error () →
        exit_code (dns_main cfg2 serversFile domainsFile probe api) = 1
        ∧ ∀ fetch2 : Except String (List (String × ℕ)),
          exit_code (ssl_main cfg2 fetch2 probeT apiT) = 1)
    ∧ exit_code (ssl_main cfg (.error emsg) probeT apiT) = 1
    ∧ (∀ targets : List (String × ℕ),
        exit_code (ssl_main cfg (.ok targets) probeT apiT) = 0)
    ∧ (read_domains domainsFile = [] →
        dns_main cfg serversFile domainsFile probe api = .ok []) := by
  refine ⟨?_, ?_, ?_, ?_, ?_⟩
  · unfold dns_main
    rw [hok]
    dsimp only
    split
    · rfl
    · split
      · rfl
      · rfl
  · intro cfg2 h2
    constructor
    · unfold dns_main
      rw [h2]
      rfl
    · intro fetch2
      unfold ssl_main
      rw [h2]
      rfl
  · unfold ssl_main
    rw [hok]
    rfl
  · intro targets
    unfold ssl_main
    rw [hok]
    dsimp only
    split
    · rfl
    · rfl
  · intro hempty
    unfold dns_main
    rw [hok]
    dsimp only
    split
    · rfl
    · rw [hempty]
      rfl

/-- Witness for C8 at concrete credentials, registries, and oracles. -/
theorem exit_code_amended_witness :
    exit_code (dns_main (.apiSection (some "http://x") (some "tok"))
      (.lines []) (.errorAfter [])
      (fun _ _ => dnsResultOfOutcome 5 0 .timeout) fun _ _ _ => .ok) = 0
    ∧ exit_code (dns_main .absent (.lines []) (.errorAfter [])
      (fun _ _ => dnsResultOfOutcome 5 0 .timeout) fun _ _ _ => .ok) = 1
    ∧ exit_code (ssl_main .absent (.error "boom")
      (fun d p => check_ssl_certificate d p 10 0 fun _ _ => .peerCert none)
      fun _ _ _ => .ok) = 1
    ∧ exit_code (ssl_main (.apiSection (some "http://x") (some "tok")) (.error "boom")
      (fun d p => check_ssl_certificate d p 10 0 fun _ _ => .peerCert none)
      fun _ _ _ => .ok) = 1
    ∧ exit_code (ssl_main (.apiSection (some "http://x") (some "tok"))
      (.ok [("example.com", 443)])
      (fun d p => check_ssl_certificate d p 10 0 fun _ _ => .peerCert none)
      fun _ _ _ => .ok) = 0
    ∧ dns_main (.apiSection (some "http://x") (some "tok"))
      (.lines []) (.errorAfter [])
      (fun _ _ => dnsResultOfOutcome 5 0 .timeout) (fun _ _ _ => .ok) = .ok [] := by
  have h := exit_code_amended (.apiSection (some "http://x") (some "tok"))
    (.lines []) (.errorAfter [])
    (fun _ _ => dnsResultOfOutcome 5 0 .timeout) (fun _ _ _ => .ok)
    ("http://x", "tok")
    (fun d p => check_ssl_certificate d p 10 0 fun _ _ => .peerCert none)
    (fun _ _ _ => .ok)
    "boom" rfl
  exact ⟨h.1, (h.2.1 .absent rfl).1, (h.2.1 .absent rfl).2 (.error "boom"),
    h.2.2.1, h.2.2.2.1 [("example.com", 443)], h.2.2.2.2 rfl⟩

/-- Helper: every character of an extracted domain differs from ':' and
'/' - the last two steps of the extraction keep only the characters
before the first '/' and then before the first ':'. -/
theorem mem_clean_domain (l : List Char) :
    ∀ ch ∈ clean_domain l, ch ≠ ':' ∧ ch ≠ '/' := by
  intro ch hm
  unfold clean_domain at hm
  have h1 := List.mem_takeWhile_imp hm
  have hm2 : ch ∈ (afterScheme l).takeWhile fun c => c != '/' :=
    List.Sublist.mem hm (List.takeWhile_prefix _).sublist
  have h2 := List.mem_takeWhile_imp hm2
  simp only [bne_iff_ne, ne_eq] at h1 h2
  exact ⟨h1, h2⟩

/-- Helper: a list without ':' cannot contain the substring "://". -/
theorem no_colon_no_scheme (l : List Char) (h : ∀ ch ∈ l, ch ≠ ':') :
    occursIn schemeSep l = false := by
  by_contra hc
  rw [Bool.not_eq_false] at hc
  unfold occursIn at hc
  rw [List.any_eq_true] at hc
  obtain ⟨t, ht, hp⟩ := hc
  rw [List.isPrefixOf_iff_prefix] at hp
  have hcolon : ':' ∈ t := List.Sublist.mem (by decide) hp.sublist
  have htl : t.Sublist l := ((List.mem_tails t l).mp ht).sublist
  exact h ':' (List.Sublist.mem hcolon htl) rfl

/-- C10: every domain that `read_domains` returns is free of ':' and '/'
characters and of the substring "://" (scheme, path and port suffixes are
stripped); a line that is empty or starts with '#' after whitespace
stripping contributes no domain, every other line contributes the
extracted domain; and a read error yields exactly the domains accumulated
from the lines read before it, without raising. -/
theorem read_domains_clean :
    (∀ fc : FileContent,
      ((read_domains fc).all fun d =>
        (d.all fun ch => ch != ':' && ch != '/') && !occursIn schemeSep d) = true)
    ∧ (∀ raw : List Char, keep_domain_line raw
        = if strip raw = [] ∨ startsWithHash (strip raw) = true then none
          else some (clean_domain (strip raw)))
    ∧ (∀ ls : List (List Char),
        read_domains (.errorAfter ls) = read_domains_lines ls) := by
  refine ⟨?_, ?_, fun _ => rfl⟩
  · intro fc
    rw [List.all_eq_true]
    intro d hd
    have hcd : ∃ raw, keep_domain_line raw = some d := by
      cases fc with
      | missing => simp [read_domains] at hd
      | lines ls =>
        unfold read_domains read_domains_lines at hd
        rw [List.mem_filterMap] at hd
        obtain ⟨raw, _, hr⟩ := hd
        exact ⟨raw, hr⟩
      | errorAfter ls =>
        unfold read_domains read_domains_lines at hd
        rw [List.mem_filterMap] at hd
        obtain ⟨raw, _, hr⟩ := hd
        exact ⟨raw, hr⟩
    obtain ⟨raw, hr⟩ := hcd
    unfold keep_domain_line at hr
    dsimp only at hr
    split at hr
    · rw [Option.some_inj] at hr
      subst hr
      have h1 : (clean_domain (strip raw)).all (fun ch => ch != ':' && ch != '/') = true := by
        rw [List.all_eq_true]
        intro ch hch
        have hne := mem_clean_domain (strip raw) ch hch
        simp [hne.1, hne.2]
      have h2 : occursIn schemeSep (clean_domain (strip raw)) = false :=
        no_colon_no_scheme _ fun ch hch => (mem_clean_domain (strip raw) ch hch).1
      rw [h1, h2]
      rfl
    · exact absurd hr (by simp)
  · intro raw
    by_cases h1 : strip raw = []
    · simp [keep_domain_line, h1]
    · by_cases h2 : startsWithHash (strip raw) = true
      · simp [keep_domain_line, h1, h2]
      · simp [keep_domain_line, h1, h2]
